import Mathlib

/-!
Shallow embedding of the FDTD simulation engine of the repository
(src/main/simulation/simulation.py and the modules it uses), together with
theorems settling the frozen claims about its specification.

Conventions of the embedding:
- numpy float64 arithmetic is modelled by the real numbers;
- a 2D numpy array is modelled either as a total function on indices
  (type Grid below, used for the per-frame stencil of simulate_frame) or,
  where the in-place ndarray.resize buffer semantics matters, as a record
  NdArray holding the shape and the row-major flat buffer;
- a fallible indexing operation (data[frame] on a fixed-length buffer)
  is modelled with Option;
- the dynamic dispatch source.calculate_data(...) performed by the engine
  is modelled by a function field calcData stored in the source record
  (the arity mismatch between this call and the concrete SineSource
  implementation is treated separately, see the C10 theorem).
-/

namespace Oddzialywanie

/-- Physical constant MU_0 = 4.0 * pi * 1.0e-7 (simulation.py line 13). -/
noncomputable def MU_0 : ℝ := 4.0 * Real.pi * 1.0e-7

/-- Physical constant EPS_0 = 8.854 * 1e-12 (simulation.py line 14). -/
noncomputable def EPS_0 : ℝ := 8.854 * 1e-12

/-- Free-space impedance ETA = sqrt(MU_0 / EPS_0) (simulation.py line 15). -/
noncomputable def ETA : ℝ := Real.sqrt (MU_0 / EPS_0)

/-- A dense 2D float array viewed as a total function on indices. -/
abbrev Grid : Type := ℕ → ℕ → ℝ

/-- The all-zero grid (np.zeros). -/
def zeroGrid : Grid := fun _ _ => 0

/-- Hy update of simulate_frame (simulation.py line 236):
hy[idx1] = pml_a * hy[idx1] + pml_b * am[idx1] * (ez[n1+1:n2+1, n11:n21] - ez[idx1])
with n1 = n11 = 1, n2 = grid_size_y - 1, n21 = grid_size_x - 1. -/
def hyStep (sx sy : ℕ) (a b am ez hy : Grid) : Grid := fun i j =>
  if 1 ≤ i ∧ i < sy - 1 ∧ 1 ≤ j ∧ j < sx - 1 then
    a i j * hy i j + b i j * am i j * (ez (i + 1) j - ez i j)
  else hy i j

/-- Hx update of simulate_frame (simulation.py line 237):
hx[idx1] = pml_a * hx[idx1] - pml_b * am[idx1] * (ez[n1:n2, n11+1:n21+1] - ez[idx1]). -/
def hxStep (sx sy : ℕ) (a b am ez hx : Grid) : Grid := fun i j =>
  if 1 ≤ i ∧ i < sy - 1 ∧ 1 ≤ j ∧ j < sx - 1 then
    a i j * hx i j - b i j * am i j * (ez i (j + 1) - ez i j)
  else hx i j

/-- Ez update of simulate_frame (simulation.py line 238), reading the hy and hx
arrays as they stand after the two H updates (the assignments are in place):
ez[idx2] = c[idx2] * ez[idx2] + d[idx2] * ae[idx2] *
  (hy[idx2] - hy[n1:n2, n11+1:n21+1] - hx[idx2] + hx[n1+1:n2+1, n11:n21])
with idx2 = (slice(2, grid_size_y), slice(2, grid_size_x)). -/
def ezStep (sx sy : ℕ) (c d ae hy hx ez : Grid) : Grid := fun i j =>
  if 2 ≤ i ∧ i < sy ∧ 2 ≤ j ∧ j < sx then
    c i j * ez i j + d i j * ae i j *
      (hy i j - hy (i - 1) j - hx i j + hx i (j - 1))
  else ez i j

/-- The three in-place stencil assignments of simulate_frame, in program order:
hy first, then hx, then ez computed from the already-updated hy and hx.
Returns (ez, hx, hy) after the three assignments. -/
def stepFields (sx sy : ℕ) (a b c d ae am ez hx hy : Grid) : Grid × Grid × Grid :=
  (ezStep sx sy c d ae (hyStep sx sy a b am ez hy) (hxStep sx sy a b am ez hx) ez,
   hxStep sx sy a b am ez hx,
   hyStep sx sy a b am ez hy)

/-- Write a single cell of a grid: g[i, j] = v. -/
def setCell (g : Grid) (i j : ℕ) (v : ℝ) : Grid := fun a b =>
  if a = i ∧ b = j then v else g a b

/-- A source as held by the engine: integer grid position, the data series,
and the dispatched calculate_data(time_array) method
(src/main/simulation/sources/simulation_source.py). -/
structure EngineSource where
  posX : ℕ
  posY : ℕ
  calcData : List ℝ → List ℝ
  data : List ℝ

/-- A sensor as held by the engine after allocation: integer grid position and
a fixed-length data buffer (src/main/simulation/sensor.py). -/
structure EngineSensor where
  posX : ℕ
  posY : ℕ
  data : List ℝ

/-- Source injection loop of simulate_frame (simulation.py lines 241-242):
ez[source.pos_y_int, source.pos_x_int] = source.data[current_frame].
Indexing data past its length is an IndexError, modelled as none. -/
def injectSources (frame : ℕ) : List EngineSource → Grid → Option Grid
  | [], ez => some ez
  | s :: rest, ez =>
    match s.data.get? frame with
    | none => none
    | some v => injectSources frame rest (setCell ez s.posY s.posX v)

/-- Sensor recording loop of simulate_frame (simulation.py lines 245-247):
sensor.data[current_frame] = ez[sensor.pos_int] with pos_int = (pos_x_int, pos_y_int).
Writing past the buffer length is an IndexError, modelled as none. -/
def recordSensors (frame : ℕ) (ez : Grid) : List EngineSensor → Option (List EngineSensor)
  | [] => some []
  | s :: rest =>
    if frame < s.data.length then
      match recordSensors frame ez rest with
      | none => none
      | some done => some ({ s with data := s.data.set frame (ez s.posX s.posY) } :: done)
    else none

/-- One call of Simulation.simulate_frame (simulation.py lines 222-249) acting on
the field arrays, the held sources and sensors and the frame counter: the three
stencil assignments, then source injection, then sensor recording, then the
frame counter increment. Returns (ez, hx, hy, sensors, current_frame). -/
def simulateFrame (sx sy : ℕ) (a b c d ae am : Grid)
    (sources : List EngineSource) (sensors : List EngineSensor)
    (frame : ℕ) (ez hx hy : Grid) :
    Option (Grid × Grid × Grid × List EngineSensor × ℕ) :=
  match stepFields sx sy a b c d ae am ez hx hy with
  | (ez1, hx1, hy1) =>
    match injectSources frame sources ez1 with
    | none => none
    | some ez2 =>
      match recordSensors frame ez2 sensors with
      | none => none
      | some sensors1 => some (ez2, hx1, hy1, sensors1, frame + 1)

/-- A 2D numpy array with its shape and row-major flat buffer, used where the
in-place ndarray.resize semantics matters. Cell (i, j) lives at flat index
i * ny + j; flat slots at or beyond nx * ny are never read through get. -/
structure NdArray where
  nx : ℕ
  ny : ℕ
  flat : ℕ → ℝ

/-- Read cell (i, j); meaningful for i < nx and j < ny. -/
def NdArray.get (a : NdArray) (i j : ℕ) : ℝ := a.flat (i * a.ny + j)

/-- np.zeros((nx, ny)) and np.ones((nx, ny)) * v: a constant-filled array. -/
def NdArray.full (nx ny : ℕ) (v : ℝ) : NdArray := ⟨nx, ny, fun _ => v⟩

/-- In-place ndarray.resize((nx1, ny1)): the row-major flat buffer is kept,
truncated or zero-filled at the end; the data is NOT re-laid out by 2D index. -/
def NdArray.resizeTo (a : NdArray) (nx1 ny1 : ℕ) : NdArray :=
  ⟨nx1, ny1, fun k => if k < a.nx * a.ny then a.flat k else 0⟩

/-- Sliced constant assignment a[x:x+w, y:y+h] = v (basic slicing clips to the
array bounds; positions are the already-truncated non-negative int indices). -/
def NdArray.setRect (a : NdArray) (x w y h : ℕ) (v : ℝ) : NdArray :=
  ⟨a.nx, a.ny, fun k =>
    if x ≤ k / a.ny ∧ k / a.ny < x + w ∧ y ≤ k % a.ny ∧ k % a.ny < y + h then v
    else a.flat k⟩

/-- A rectangular simulation object (src/main/simulation/objects/box.py), with
positions and extents already truncated to int (pos_x_int, width_int, ...). -/
structure Box where
  permittivity : ℝ
  permeability : ℝ
  posXInt : ℕ
  posYInt : ℕ
  widthInt : ℕ
  heightInt : ℕ

/-- Box.place (box.py lines 18-20):
permittivity_array[pos_x_int:pos_x_int+width_int, pos_y_int:pos_y_int+height_int] = permittivity
permeability_array[same slice] = permeability. -/
def Box.place (b : Box) (ae am : NdArray) : NdArray × NdArray :=
  (ae.setRect b.posXInt b.widthInt b.posYInt b.heightInt b.permittivity,
   am.setRect b.posXInt b.widthInt b.posYInt b.heightInt b.permeability)

/-- Box.erase (box.py lines 22-28): the same slice reset to the defaults. -/
def Box.eraseObj (b : Box) (ae am : NdArray) (defaultAe defaultAm : ℝ) : NdArray × NdArray :=
  (ae.setRect b.posXInt b.widthInt b.posYInt b.heightInt defaultAe,
   am.setRect b.posXInt b.widthInt b.posYInt b.heightInt defaultAm)

/-- Simulation._update_objects(erase_old=False) (simulation.py lines 294-296):
place every held object, in order, into the coefficient arrays. -/
def placeAll : List Box → NdArray → NdArray → NdArray × NdArray
  | [], ae, am => (ae, am)
  | b :: rest, ae, am => placeAll rest (b.place ae am).1 (b.place ae am).2

/-- The power-law ramp lcp = ((np.arange(1, layers+1) / layers) ** order) * sigma_max
(simulation.py line 264), at 0-based index k. -/
noncomputable def lcp (layers order : ℕ) (smax : ℝ) (k : ℕ) : ℝ :=
  (((k + 1 : ℕ) : ℝ) / (layers : ℝ)) ^ order * smax

/-- lcp_rev = np.flip(lcp) (simulation.py line 265). -/
noncomputable def lcpRev (layers order : ℕ) (smax : ℝ) (k : ℕ) : ℝ :=
  lcp layers order smax (layers - 1 - k)

/-- sigma_max = -(order+1) * log(reflectivity) / (2 * ETA * layers * dx)
(simulation.py line 263). -/
noncomputable def sigmaMax (order layers : ℕ) (refl dx : ℝ) : ℝ :=
  -((order : ℝ) + 1) * Real.log refl / (2 * ETA * (layers : ℝ) * dx)

/-- The graded loss array built by _regenerate_pml_profile (simulation.py lines
262-270): a uniform 4e-4 background, plus the reversed ramp on rows 1..layers,
the forward ramp on the last layers rows, and likewise on columns; corner cells
accumulate both axes additively. The array has shape (nx, ny) = grid_size. -/
noncomputable def pmlSigma (nx ny layers order : ℕ) (smax : ℝ) (i j : ℕ) : ℝ :=
  4e-4
    + (if 1 ≤ i ∧ i < layers + 1 then lcpRev layers order smax (i - 1) else 0)
    + (if nx - layers ≤ i then lcp layers order smax (i - (nx - layers)) else 0)
    + (if 1 ≤ j ∧ j < layers + 1 then lcpRev layers order smax (j - 1) else 0)
    + (if ny - layers ≤ j then lcp layers order smax (j - (ny - layers)) else 0)

/-- The PML coefficient bundle (src/main/simulation/pml_profile.py). -/
structure PMLProfileE where
  data : Grid
  a : Grid
  b : Grid
  c : Grid
  d : Grid

/-- Simulation._regenerate_pml_profile (simulation.py lines 261-277): data is
sigma transposed; a and b are uniform; c and d are graded pointwise by sigma. -/
noncomputable def regeneratePml (nx ny layers order : ℕ) (refl dx dt : ℝ) : PMLProfileE :=
  ⟨fun i j => pmlSigma nx ny layers order (sigmaMax order layers refl dx) j i,
   fun _ _ => (MU_0 - 0.5 * dt * 4e-4) / (MU_0 + 0.5 * dt * 4e-4),
   fun _ _ => (dt / dx) / (MU_0 + 0.5 * dt * 4e-4),
   fun i j => (EPS_0 - 0.5 * dt * pmlSigma nx ny layers order (sigmaMax order layers refl dx) i j)
     / (EPS_0 + 0.5 * dt * pmlSigma nx ny layers order (sigmaMax order layers refl dx) i j),
   fun i j => (dt / dx)
     / (EPS_0 + 0.5 * dt * pmlSigma nx ny layers order (sigmaMax order layers refl dx) i j)⟩

/-- np.linspace(lo, hi, n): n evenly spaced samples from lo to hi inclusive
(for n = 1 the single sample is lo; the 0/0 = 0 convention makes the generic
formula return lo there as well). -/
noncomputable def linspace (lo hi : ℝ) (n : ℕ) : List ℝ :=
  (List.range n).map fun k => lo + (k : ℝ) * (hi - lo) / ((n : ℝ) - 1)

/-- Simulation._regenerate_time_array (simulation.py lines 258-259):
time_array = -np.linspace(-30 * dt, 30 * dt, max_time_steps). -/
noncomputable def regenerateTimeArray (dt : ℝ) (maxTimeSteps : ℕ) : List ℝ :=
  (linspace (-(30 * dt)) (30 * dt) maxTimeSteps).map fun t => -t

/-- SimulationSource.generate_time_array (simulation_source.py lines 15-17):
-np.linspace(-l * dt, l * dt, time_steps). -/
noncomputable def generateTimeArray (l dt : ℝ) (timeSteps : ℕ) : List ℝ :=
  (linspace (-(l * dt)) (l * dt) timeSteps).map fun t => -t

/-- SineSource.calculate_data body (src/main/simulation/sources/sine_source.py
lines 12-13): sin(2 * pi * frequency * generate_time_array(length, dt, time_steps)).
Note its two required positional parameters dter and timeSteps. -/
noncomputable def sineCalculateData (frequency length dter : ℝ) (timeSteps : ℕ) : List ℝ :=
  (generateTimeArray length dter timeSteps).map fun t => Real.sin (2 * Real.pi * frequency * t)

/-- Number of required positional (non-self) parameters of
SineSource.calculate_data as defined in sine_source.py line 12: dt, time_steps. -/
def sineCalculateDataRequiredArgs : ℕ := 2

/-- Number of positional arguments supplied at the engine-side call
source.calculate_data(self._time_array) in Simulation.add_source
(simulation.py line 181; the same call appears in update_source line 199 and
_recalculate_sources_data line 319). -/
def engineCalculateDataSuppliedArgs : ℕ := 1

/-- A Python positional call binds only when the supplied argument count equals
the required parameter count (SineSource.calculate_data has no defaults). -/
def pyCallBinds (required supplied : ℕ) : Bool := supplied == required

/-- The aggregate Simulation state (simulation.py lines 22-62): parameters,
frame counter, the five arrays, the shared time basis, the PML profile and the
held entity collections (dict values in insertion order, modelled as lists). -/
structure Sim where
  dt : ℝ
  dx : ℝ
  maxTimeSteps : ℕ
  gridSizeX : ℕ
  gridSizeY : ℕ
  pmlReflectivity : ℝ
  pmlLayers : ℕ
  pmlOrder : ℕ
  currentFrame : ℕ
  ez : NdArray
  hx : NdArray
  hy : NdArray
  ae : NdArray
  am : NdArray
  timeArray : List ℝ
  pml : PMLProfileE
  sources : List EngineSource
  objects : List Box
  sensors : List EngineSensor
  needsAllowanceUpdate : Bool

/-- Simulation.reset (simulation.py lines 169-178): zero the frame counter,
reallocate ez, hx, hy as zero arrays of the current grid size, recompute the
allowance (background) arrays from the current dt and dx
(_update_allowance_arrays, lines 279-281) and re-place every held object
(_update_objects with erase_old=False). Collections are untouched. -/
noncomputable def Sim.reset (s : Sim) : Sim :=
  { s with
    currentFrame := 0,
    ez := NdArray.full s.gridSizeX s.gridSizeY 0,
    hx := NdArray.full s.gridSizeX s.gridSizeY 0,
    hy := NdArray.full s.gridSizeX s.gridSizeY 0,
    ae := (placeAll s.objects
      (NdArray.full s.gridSizeX s.gridSizeY (s.dt / (s.dx * EPS_0)))
      (NdArray.full s.gridSizeX s.gridSizeY (s.dt / (s.dx * MU_0)))).1,
    am := (placeAll s.objects
      (NdArray.full s.gridSizeX s.gridSizeY (s.dt / (s.dx * EPS_0)))
      (NdArray.full s.gridSizeX s.gridSizeY (s.dt / (s.dx * MU_0)))).2 }

/-- Simulation._set_dt (simulation.py lines 308-319): store the new dt, possibly
regenerate the PML profile, regenerate the time basis and recompute the data of
every held source through the dispatched calculate_data(time_array) call.
It does NOT touch the allowance arrays ae and am nor re-place objects. -/
noncomputable def Sim.setDtAux (s : Sim) (v : ℝ) (regen : Bool) : Sim :=
  { s with
    dt := v,
    pml := if regen then
        regeneratePml s.gridSizeX s.gridSizeY s.pmlLayers s.pmlOrder s.pmlReflectivity s.dx v
      else s.pml,
    timeArray := regenerateTimeArray v s.maxTimeSteps,
    sources := s.sources.map fun src =>
      { src with data := src.calcData (regenerateTimeArray v s.maxTimeSteps) } }

/-- Simulation.set_dt (simulation.py lines 124-126): _set_dt with
regenerate_pml=True (the params_changed signal is UI-only and not modelled). -/
noncomputable def Sim.setDt (s : Sim) (v : ℝ) : Sim := s.setDtAux v true

/-- Simulation.set_grid_size (simulation.py lines 128-145): store the new sizes
(None keeps the old one), resize hx, hy, ae and am in place (ez is NOT resized)
and set the needs-allowance-update flag. -/
def Sim.setGridSize (s : Sim) (x y : Option ℕ) : Sim :=
  { s with
    gridSizeX := x.getD s.gridSizeX,
    gridSizeY := y.getD s.gridSizeY,
    hx := s.hx.resizeTo (x.getD s.gridSizeX) (y.getD s.gridSizeY),
    hy := s.hy.resizeTo (x.getD s.gridSizeX) (y.getD s.gridSizeY),
    ae := s.ae.resizeTo (x.getD s.gridSizeX) (y.getD s.gridSizeY),
    am := s.am.resizeTo (x.getD s.gridSizeX) (y.getD s.gridSizeY),
    needsAllowanceUpdate := true }

/-- Simulation.add_sensor (simulation.py lines 188-194): allocate the sensor
buffer as np.zeros((max_time_steps,)) and append the sensor to the collection. -/
def Sim.addSensor (s : Sim) (posX posY : ℕ) : Sim :=
  { s with sensors := s.sensors ++ [⟨posX, posY, List.replicate s.maxTimeSteps 0⟩] }

/-- Simulation.__init__ (simulation.py lines 25-62): store the parameters, zero
the frame counter, then reset(), _regenerate_pml_profile() and
_regenerate_time_array(), with empty entity collections. -/
noncomputable def Sim.init (dt dx : ℝ) (maxTimeSteps nx ny : ℕ)
    (refl : ℝ) (layers order : ℕ) : Sim :=
  let s0 : Sim :=
    { dt := dt, dx := dx, maxTimeSteps := maxTimeSteps,
      gridSizeX := nx, gridSizeY := ny,
      pmlReflectivity := refl, pmlLayers := layers, pmlOrder := order,
      currentFrame := 0,
      ez := NdArray.full nx ny 0, hx := NdArray.full nx ny 0,
      hy := NdArray.full nx ny 0,
      ae := NdArray.full nx ny 0, am := NdArray.full nx ny 0,
      timeArray := [],
      pml := ⟨zeroGrid, zeroGrid, zeroGrid, zeroGrid, zeroGrid⟩,
      sources := [], objects := [], sensors := [],
      needsAllowanceUpdate := false }
  { s0.reset with
    pml := regeneratePml nx ny layers order refl dx dt,
    timeArray := regenerateTimeArray dt maxTimeSteps }

/-- Constant-one grid, used as a concrete coefficient array in witnesses. -/
def wOne : Grid := fun _ _ => 1

/-- A concrete non-constant ez array used in witnesses. -/
def wEz : Grid := fun i j => (i : ℝ) + 2 * (j : ℝ)

/-- A concrete hx array used in witnesses. -/
def wHx : Grid := fun _ _ => 5

/-- A concrete hy array used in witnesses. -/
def wHy : Grid := fun _ _ => 7

/-- The ez array produced by the stencil on a 3x3 all-zero state. -/
def wZ3ez : Grid :=
  ezStep 3 3 wOne wOne wOne (hyStep 3 3 wOne wOne wOne zeroGrid zeroGrid)
    (hxStep 3 3 wOne wOne wOne zeroGrid zeroGrid) zeroGrid

/-- The hx array produced by the stencil on a 3x3 all-zero state. -/
def wZ3hx : Grid := hxStep 3 3 wOne wOne wOne zeroGrid zeroGrid

/-- The hy array produced by the stencil on a 3x3 all-zero state. -/
def wZ3hy : Grid := hyStep 3 3 wOne wOne wOne zeroGrid zeroGrid

/-- A concrete Simulation state holding one sensor with a length-1 buffer,
used in witnesses. -/
noncomputable def wSim : Sim :=
  { dt := 1, dx := 1, maxTimeSteps := 1, gridSizeX := 2, gridSizeY := 2,
    pmlReflectivity := 0.5, pmlLayers := 1, pmlOrder := 1, currentFrame := 0,
    ez := NdArray.full 2 2 0, hx := NdArray.full 2 2 0, hy := NdArray.full 2 2 0,
    ae := NdArray.full 2 2 0, am := NdArray.full 2 2 0,
    timeArray := [], pml := ⟨zeroGrid, zeroGrid, zeroGrid, zeroGrid, zeroGrid⟩,
    sources := [], objects := [], sensors := [⟨0, 0, [0]⟩],
    needsAllowanceUpdate := false }

/-- A concrete Simulation state whose hx array holds distinct values
(flat buffer 0, 1, 2, 3 on a 2x2 shape), used for the grid-resize claims. -/
noncomputable def wSim2 : Sim :=
  { wSim with hx := ⟨2, 2, fun k => (k : ℝ)⟩ }

/-- C2: one call of simulate_frame first overwrites hy on the interior region
with a*hy + b*am*(ez[i+1,j] - ez[i,j]), then hx with a*hx - b*am*(ez[i,j+1] - ez[i,j]),
and then overwrites ez on the region shifted one more cell inward with
c*ez + d*ae*((hy[i,j] - hy[i-1,j]) - (hx[i,j] - hx[i,j-1])) computed from the
just-updated H arrays, not the pre-step ones. -/
theorem simulate_frame_stencil (sx sy : ℕ) (a b c d ae am ez hx hy : Grid) :
    stepFields sx sy a b c d ae am ez hx hy =
      (ezStep sx sy c d ae (hyStep sx sy a b am ez hy) (hxStep sx sy a b am ez hx) ez,
       hxStep sx sy a b am ez hx, hyStep sx sy a b am ez hy)
    ∧ (∀ i j, 1 ≤ i → i < sy - 1 → 1 ≤ j → j < sx - 1 →
        hyStep sx sy a b am ez hy i j
          = a i j * hy i j + b i j * am i j * (ez (i + 1) j - ez i j)
        ∧ hxStep sx sy a b am ez hx i j
          = a i j * hx i j - b i j * am i j * (ez i (j + 1) - ez i j))
    ∧ (∀ i j, 2 ≤ i → i < sy → 2 ≤ j → j < sx →
        ezStep sx sy c d ae (hyStep sx sy a b am ez hy) (hxStep sx sy a b am ez hx) ez i j
          = c i j * ez i j + d i j * ae i j *
            ((hyStep sx sy a b am ez hy i j - hyStep sx sy a b am ez hy (i - 1) j)
              - (hxStep sx sy a b am ez hx i j - hxStep sx sy a b am ez hx i (j - 1)))) := by
  refine ⟨rfl, ?_, ?_⟩
  · intro i j h1 h2 h3 h4
    constructor
    · simp only [hyStep, if_pos (show 1 ≤ i ∧ i < sy - 1 ∧ 1 ≤ j ∧ j < sx - 1 from ⟨h1, h2, h3, h4⟩)]
    · simp only [hxStep, if_pos (show 1 ≤ i ∧ i < sy - 1 ∧ 1 ≤ j ∧ j < sx - 1 from ⟨h1, h2, h3, h4⟩)]
  · intro i j h1 h2 h3 h4
    simp only [ezStep, if_pos (show 2 ≤ i ∧ i < sy ∧ 2 ≤ j ∧ j < sx from ⟨h1, h2, h3, h4⟩)]
    ring

/-- Witness for C2 at a concrete 4x4 input. -/
theorem simulate_frame_stencil_witness :
    ((1 : ℕ) ≤ 1 ∧ 1 < 4 - 1 ∧ (2 : ℕ) ≤ 2 ∧ 2 < 4)
    ∧ (hyStep 4 4 wOne wOne wOne wEz wHy 1 1
        = wOne 1 1 * wHy 1 1 + wOne 1 1 * wOne 1 1 * (wEz 2 1 - wEz 1 1)
      ∧ hxStep 4 4 wOne wOne wOne wEz wHx 1 1
        = wOne 1 1 * wHx 1 1 - wOne 1 1 * wOne 1 1 * (wEz 1 2 - wEz 1 1))
    ∧ ezStep 4 4 wOne wOne wOne (hyStep 4 4 wOne wOne wOne wEz wHy)
        (hxStep 4 4 wOne wOne wOne wEz wHx) wEz 2 2
        = wOne 2 2 * wEz 2 2 + wOne 2 2 * wOne 2 2 *
          ((hyStep 4 4 wOne wOne wOne wEz wHy 2 2 - hyStep 4 4 wOne wOne wOne wEz wHy 1 2)
            - (hxStep 4 4 wOne wOne wOne wEz wHx 2 2 - hxStep 4 4 wOne wOne wOne wEz wHx 2 1)) :=
  ⟨by decide,
   (simulate_frame_stencil 4 4 wOne wOne wOne wOne wOne wOne wEz wHx wHy).2.1 1 1
     (by decide) (by decide) (by decide) (by decide),
   (simulate_frame_stencil 4 4 wOne wOne wOne wOne wOne wOne wEz wHx wHy).2.2 2 2
     (by decide) (by decide) (by decide) (by decide)⟩

/-- C7: with no sources present, simulate_frame applied to all-zero field arrays
leaves all three field arrays all zero, for any sizes, frame counter, sensors
and any coefficient arrays. -/
theorem zero_fields_stay_zero (sx sy f : ℕ) (a b c d ae am ez hx hy : Grid)
    (sensors : List EngineSensor)
    (hez : ∀ i j, ez i j = 0) (hhx : ∀ i j, hx i j = 0) (hhy : ∀ i j, hy i j = 0)
    (res : Grid × Grid × Grid × List EngineSensor × ℕ)
    (hres : simulateFrame sx sy a b c d ae am [] sensors f ez hx hy = some res)
    (i j : ℕ) :
    res.1 i j = 0 ∧ res.2.1 i j = 0 ∧ res.2.2.1 i j = 0 := by
  have hys : ∀ i j, hyStep sx sy a b am ez hy i j = 0 := by
    intro i j; simp [hyStep, hez, hhy]
  have hxs : ∀ i j, hxStep sx sy a b am ez hx i j = 0 := by
    intro i j; simp [hxStep, hez, hhx]
  have hezs : ∀ i j,
      ezStep sx sy c d ae (hyStep sx sy a b am ez hy) (hxStep sx sy a b am ez hx) ez i j = 0 := by
    intro i j; simp [ezStep, hez, hys, hxs]
  simp only [simulateFrame, stepFields, injectSources] at hres
  cases hrec : recordSensors f
      (ezStep sx sy c d ae (hyStep sx sy a b am ez hy) (hxStep sx sy a b am ez hx) ez) sensors with
  | none => rw [hrec] at hres; cases hres
  | some s1 =>
    rw [hrec] at hres
    have hres1 := Option.some.inj hres
    rw [← hres1]
    exact ⟨hezs i j, hxs i j, hys i j⟩

/-- Witness for C7 at a concrete 3x3 input. -/
theorem zero_fields_stay_zero_witness :
    simulateFrame 3 3 wOne wOne wOne wOne wOne wOne [] [] 0 zeroGrid zeroGrid zeroGrid
      = some (wZ3ez, wZ3hx, wZ3hy, [], 1)
    ∧ (wZ3ez 1 1 = 0 ∧ wZ3hx 1 1 = 0 ∧ wZ3hy 1 1 = 0) :=
  ⟨rfl,
   zero_fields_stay_zero 3 3 0 wOne wOne wOne wOne wOne wOne zeroGrid zeroGrid zeroGrid []
     (fun _ _ => rfl) (fun _ _ => rfl) (fun _ _ => rfl) (wZ3ez, wZ3hx, wZ3hy, [], 1) rfl 1 1⟩

theorem recordSensors_eq_none_iff (f : ℕ) (ez : Grid) (sens : List EngineSensor) :
    recordSensors f ez sens = none ↔ ∃ sen ∈ sens, sen.data.length ≤ f := by
  induction sens with
  | nil => simp [recordSensors]
  | cons s rest ih =>
    simp only [recordSensors]
    by_cases h : f < s.data.length
    · rw [if_pos h]
      cases hrec : recordSensors f ez rest with
      | none =>
        refine iff_of_true rfl ?_
        obtain ⟨sen, hmem, hlen⟩ := ih.mp hrec
        exact ⟨sen, List.mem_cons_of_mem _ hmem, hlen⟩
      | some done =>
        refine iff_of_false (by simp) ?_
        rintro ⟨sen, hmem, hlen⟩
        rcases List.mem_cons.mp hmem with hs | hm
        · rw [hs] at hlen; omega
        · have : recordSensors f ez rest = none := ih.mpr ⟨sen, hm, hlen⟩
          rw [this] at hrec; cases hrec
    · rw [if_neg h]
      exact iff_of_true rfl ⟨s, List.mem_cons_self _ _, by omega⟩

/-- C9: add_sensor allocates the sensor data buffer with length exactly
max_time_steps; for a simulation holding at least one sensor (each allocated
that way) and no sources, simulate_frame hits an out-of-bounds sensor write
(returns none) precisely when current_frame has reached max_time_steps, and
every sensor write succeeds below it. -/
theorem sensor_capacity (s : Sim) (px py sx sy f : ℕ) (a b c d ae am ez hx hy : Grid)
    (hne : s.sensors ≠ [])
    (halloc : ∀ sen ∈ s.sensors, sen.data.length = s.maxTimeSteps) :
    ((s.addSensor px py).sensors.map fun sen => sen.data.length)
      = (s.sensors.map fun sen => sen.data.length) ++ [s.maxTimeSteps]
    ∧ (simulateFrame sx sy a b c d ae am [] s.sensors f ez hx hy = none
        ↔ s.maxTimeSteps ≤ f) := by
  constructor
  · simp [Sim.addSensor]
  · have hred : simulateFrame sx sy a b c d ae am [] s.sensors f ez hx hy = none
        ↔ recordSensors f
            (ezStep sx sy c d ae (hyStep sx sy a b am ez hy) (hxStep sx sy a b am ez hx) ez)
            s.sensors = none := by
      simp only [simulateFrame, stepFields, injectSources]
      cases hrec : recordSensors f
          (ezStep sx sy c d ae (hyStep sx sy a b am ez hy) (hxStep sx sy a b am ez hx) ez)
          s.sensors with
      | none => simp
      | some s1 => simp
    rw [hred, recordSensors_eq_none_iff]
    constructor
    · rintro ⟨sen, hmem, hlen⟩
      rw [halloc sen hmem] at hlen
      exact hlen
    · intro hf
      match hs : s.sensors, hne with
      | sen :: rest, _ =>
        exact ⟨sen, List.mem_cons_self _ _, by rw [halloc sen (hs ▸ List.mem_cons_self _ _)]; exact hf⟩

/-- Witness for C9 at a concrete simulation with one length-1 sensor buffer. -/
theorem sensor_capacity_witness :
    (((wSim.addSensor 1 1).sensors.map fun sen => sen.data.length)
      = (wSim.sensors.map fun sen => sen.data.length) ++ [wSim.maxTimeSteps])
    ∧ (simulateFrame 2 2 wOne wOne wOne wOne wOne wOne [] wSim.sensors 1 zeroGrid zeroGrid zeroGrid = none
        ↔ wSim.maxTimeSteps ≤ 1) :=
  sensor_capacity wSim 1 1 2 2 1 wOne wOne wOne wOne wOne wOne zeroGrid zeroGrid zeroGrid
    (by simp [wSim]) (by intro sen hmem; simp [wSim] at hmem; subst hmem; rfl)

theorem NdArray.get_setRect (a : NdArray) (x w y h : ℕ) (v : ℝ) (i j : ℕ)
    (hj : j < a.ny) :
    (a.setRect x w y h v).get i j
      = if x ≤ i ∧ i < x + w ∧ y ≤ j ∧ j < y + h then v else a.get i j := by
  have hny : 0 < a.ny := Nat.lt_of_le_of_lt (Nat.zero_le j) hj
  have hdiv : (i * a.ny + j) / a.ny = i := by
    rw [Nat.add_comm, Nat.add_mul_div_right _ _ hny, Nat.div_eq_of_lt hj, Nat.zero_add]
  have hmod : (i * a.ny + j) % a.ny = j := by
    rw [Nat.mul_comm, Nat.mul_add_mod, Nat.mod_eq_of_lt hj]
  simp only [NdArray.setRect, NdArray.get, hdiv, hmod]

/-- C1 counterexample: placing a box with permittivity 2 and permeability 3 at
dt = dx = 1 writes the raw value 2 into the ae cell, which differs from the
claimed dt / (dx * permittivity) = 1 / 2. -/
theorem place_counterexample :
    ((Box.place ⟨2, 3, 0, 0, 1, 1⟩ (NdArray.full 2 2 0) (NdArray.full 2 2 0)).1.get 0 0 = 2)
    ∧ ((Box.place ⟨2, 3, 0, 0, 1, 1⟩ (NdArray.full 2 2 0) (NdArray.full 2 2 0)).1.get 0 0
        ≠ 1 / (1 * 2)) := by
  have h1 : (Box.place ⟨2, 3, 0, 0, 1, 1⟩
      (NdArray.full 2 2 0) (NdArray.full 2 2 0)).1.get 0 0 = 2 := by
    simp [Box.place, NdArray.setRect, NdArray.get, NdArray.full]
  refine ⟨h1, ?_⟩
  rw [h1]
  norm_num

/-- C1 amended: placing an object writes its raw permittivity scalar into ae and
its raw permeability scalar into am at every cell of the footprint lying inside
the array bounds (there is no dt / (dx * value) scaling), and leaves every cell
outside the footprint unchanged. -/
theorem place_spec (b : Box) (ae am : NdArray) (i j : ℕ)
    (hjae : j < ae.ny) (hjam : j < am.ny) :
    (b.posXInt ≤ i ∧ i < b.posXInt + b.widthInt ∧ b.posYInt ≤ j ∧ j < b.posYInt + b.heightInt →
      (b.place ae am).1.get i j = b.permittivity ∧ (b.place ae am).2.get i j = b.permeability)
    ∧ (¬(b.posXInt ≤ i ∧ i < b.posXInt + b.widthInt ∧ b.posYInt ≤ j ∧ j < b.posYInt + b.heightInt) →
      (b.place ae am).1.get i j = ae.get i j ∧ (b.place ae am).2.get i j = am.get i j) := by
  constructor
  · intro hin
    constructor
    · rw [show (b.place ae am).1
          = ae.setRect b.posXInt b.widthInt b.posYInt b.heightInt b.permittivity from rfl,
        NdArray.get_setRect ae _ _ _ _ _ _ _ hjae, if_pos hin]
    · rw [show (b.place ae am).2
          = am.setRect b.posXInt b.widthInt b.posYInt b.heightInt b.permeability from rfl,
        NdArray.get_setRect am _ _ _ _ _ _ _ hjam, if_pos hin]
  · intro hout
    constructor
    · rw [show (b.place ae am).1
          = ae.setRect b.posXInt b.widthInt b.posYInt b.heightInt b.permittivity from rfl,
        NdArray.get_setRect ae _ _ _ _ _ _ _ hjae, if_neg hout]
    · rw [show (b.place ae am).2
          = am.setRect b.posXInt b.widthInt b.posYInt b.heightInt b.permeability from rfl,
        NdArray.get_setRect am _ _ _ _ _ _ _ hjam, if_neg hout]

/-- Witness for the amended C1 at a concrete box and concrete arrays. -/
theorem place_spec_witness :
    ((0 : ℕ) < 2)
    ∧ ((Box.place ⟨2, 3, 0, 0, 1, 1⟩ (NdArray.full 2 2 7) (NdArray.full 2 2 8)).1.get 0 0 = 2
      ∧ (Box.place ⟨2, 3, 0, 0, 1, 1⟩ (NdArray.full 2 2 7) (NdArray.full 2 2 8)).2.get 0 0 = 3) :=
  ⟨by decide,
   (place_spec ⟨2, 3, 0, 0, 1, 1⟩ (NdArray.full 2 2 7) (NdArray.full 2 2 8) 0 0
     (by decide) (by decide)).1 (by decide)⟩

/-- C3 counterexample: on a freshly constructed simulation with dt = dx = 1 and
no objects, set_dt 2 leaves the ae background at 1 / (1 * EPS_0) instead of the
recomputed 2 / (1 * EPS_0) the claim requires. -/
theorem set_dt_counterexample :
    (((Sim.init 1 1 1 2 2 0.5 1 1).setDt 2).ae.get 0 0 = 1 / (1 * EPS_0))
    ∧ (((Sim.init 1 1 1 2 2 0.5 1 1).setDt 2).ae.get 0 0 ≠ 2 / (1 * EPS_0)) := by
  have h1 : ((Sim.init 1 1 1 2 2 0.5 1 1).setDt 2).ae.get 0 0 = 1 / (1 * EPS_0) := by
    simp [Sim.init, Sim.reset, Sim.setDt, Sim.setDtAux, placeAll, NdArray.full, NdArray.get]
  refine ⟨h1, ?_⟩
  rw [h1]
  unfold EPS_0
  norm_num

/-- C3 amended: set_dt stores the new dt, regenerates the PML profile from it,
regenerates the shared time basis and recomputes every source data series
through the dispatched calculate_data call on the new basis; it does NOT
recompute the material grid background nor re-place the held objects: ae, am
and the object list are untouched. -/
theorem set_dt_spec (s : Sim) (v : ℝ) :
    ((s.setDt v).dt = v)
    ∧ ((s.setDt v).pml
        = regeneratePml s.gridSizeX s.gridSizeY s.pmlLayers s.pmlOrder s.pmlReflectivity s.dx v)
    ∧ ((s.setDt v).timeArray = regenerateTimeArray v s.maxTimeSteps)
    ∧ ((s.setDt v).sources = s.sources.map fun src =>
        { src with data := src.calcData (regenerateTimeArray v s.maxTimeSteps) })
    ∧ ((s.setDt v).ae = s.ae) ∧ ((s.setDt v).am = s.am)
    ∧ ((s.setDt v).objects = s.objects) := by
  exact ⟨rfl, rfl, rfl, rfl, rfl, rfl, rfl⟩

/-- C8 counterexample: after set_dt 2 on a fresh dt = dx = 1 simulation, reset
recomputes the ae background from the new dt, so the material grid does NOT
hold the same contents as before the reset call. -/
theorem reset_counterexample :
    ((Sim.init 1 1 1 2 2 0.5 1 1).setDt 2).reset.ae.get 0 0
      ≠ ((Sim.init 1 1 1 2 2 0.5 1 1).setDt 2).ae.get 0 0 := by
  have h1 : ((Sim.init 1 1 1 2 2 0.5 1 1).setDt 2).ae.get 0 0 = 1 / (1 * EPS_0) := by
    simp [Sim.init, Sim.reset, Sim.setDt, Sim.setDtAux, placeAll, NdArray.full, NdArray.get]
  have h2 : ((Sim.init 1 1 1 2 2 0.5 1 1).setDt 2).reset.ae.get 0 0 = 2 / (1 * EPS_0) := by
    simp [Sim.init, Sim.reset, Sim.setDt, Sim.setDtAux, placeAll, NdArray.full, NdArray.get]
  rw [h1, h2]
  unfold EPS_0
  norm_num

/-- C8 amended: reset zeroes the three field arrays and the frame counter, and
preserves the object, source and sensor collections together with their data
buffers; the material grid is recomputed from the current dt and dx (background
fill plus re-placing every held object in order), which equals the pre-call
contents exactly when they already had that form. -/
theorem reset_spec (s : Sim) :
    ((s.reset).currentFrame = 0)
    ∧ (∀ i j, (s.reset).ez.get i j = 0 ∧ (s.reset).hx.get i j = 0 ∧ (s.reset).hy.get i j = 0)
    ∧ ((s.reset).objects = s.objects) ∧ ((s.reset).sources = s.sources)
    ∧ ((s.reset).sensors = s.sensors)
    ∧ ((s.reset).sensors.map EngineSensor.data = s.sensors.map EngineSensor.data)
    ∧ ((s.reset).sources.map EngineSource.data = s.sources.map EngineSource.data)
    ∧ ((s.reset).ae = (placeAll s.objects
        (NdArray.full s.gridSizeX s.gridSizeY (s.dt / (s.dx * EPS_0)))
        (NdArray.full s.gridSizeX s.gridSizeY (s.dt / (s.dx * MU_0)))).1)
    ∧ ((s.reset).am = (placeAll s.objects
        (NdArray.full s.gridSizeX s.gridSizeY (s.dt / (s.dx * EPS_0)))
        (NdArray.full s.gridSizeX s.gridSizeY (s.dt / (s.dx * MU_0)))).2) := by
  exact ⟨rfl, fun i j => ⟨rfl, rfl, rfl⟩, rfl, rfl, rfl, rfl, rfl, rfl, rfl⟩

/-- C4 counterexample: on a 2x2 simulation resized to 2x3, set_grid_size leaves
the ez array at its old shape, and the hx cell (1, 0), which lies in both the
old and the new index ranges, changes value from 2 to 3 because numpy resize
preserves the row-major flat buffer, not 2D indices. -/
theorem set_grid_size_counterexample :
    ((wSim2.setGridSize (some 2) (some 3)).gridSizeY = 3)
    ∧ ((wSim2.setGridSize (some 2) (some 3)).ez.ny = 2 ∧ (2 : ℕ) ≠ 3)
    ∧ ((wSim2.setGridSize (some 2) (some 3)).hx.get 1 0 = 3)
    ∧ (wSim2.hx.get 1 0 = 2)
    ∧ ((3 : ℝ) ≠ 2) := by
  refine ⟨rfl, ⟨rfl, by decide⟩, ?_, ?_, by norm_num⟩
  · simp [wSim2, wSim, Sim.setGridSize, NdArray.resizeTo, NdArray.get]
  · simp [wSim2, wSim, NdArray.get]

/-- C4 amended: set_grid_size stores the new dimensions (None keeps the old
one) and resizes hx, hy, ae and am in place with the numpy ndarray.resize
semantics: the row-major flat buffer is preserved and zero-filled past the old
total size, so values are preserved by flat index rather than by 2D index; the
ez array is not resized and keeps its old shape until the next reset. -/
theorem set_grid_size_spec (s : Sim) (x y : Option ℕ) (k : ℕ) :
    ((s.setGridSize x y).gridSizeX = x.getD s.gridSizeX)
    ∧ ((s.setGridSize x y).gridSizeY = y.getD s.gridSizeY)
    ∧ ((s.setGridSize x y).ez = s.ez)
    ∧ ((s.setGridSize x y).hx.nx = x.getD s.gridSizeX
        ∧ (s.setGridSize x y).hx.ny = y.getD s.gridSizeY
        ∧ (s.setGridSize x y).hx.flat k = if k < s.hx.nx * s.hx.ny then s.hx.flat k else 0)
    ∧ ((s.setGridSize x y).hy.nx = x.getD s.gridSizeX
        ∧ (s.setGridSize x y).hy.ny = y.getD s.gridSizeY
        ∧ (s.setGridSize x y).hy.flat k = if k < s.hy.nx * s.hy.ny then s.hy.flat k else 0)
    ∧ ((s.setGridSize x y).ae.nx = x.getD s.gridSizeX
        ∧ (s.setGridSize x y).ae.ny = y.getD s.gridSizeY
        ∧ (s.setGridSize x y).ae.flat k = if k < s.ae.nx * s.ae.ny then s.ae.flat k else 0)
    ∧ ((s.setGridSize x y).am.nx = x.getD s.gridSizeX
        ∧ (s.setGridSize x y).am.ny = y.getD s.gridSizeY
        ∧ (s.setGridSize x y).am.flat k = if k < s.am.nx * s.am.ny then s.am.flat k else 0) := by
  exact ⟨rfl, rfl, rfl, ⟨rfl, rfl, rfl⟩, ⟨rfl, rfl, rfl⟩, ⟨rfl, rfl, rfl⟩, ⟨rfl, rfl, rfl⟩⟩

theorem pml_row_symm (nx layers order : ℕ) (smax : ℝ) (i : ℕ)
    (hl : 1 ≤ layers) (hnx : 2 * layers < nx) (hi1 : 1 ≤ i) (hi2 : i ≤ nx - 1) :
    ((if 1 ≤ i ∧ i < layers + 1 then lcpRev layers order smax (i - 1) else 0)
      + (if nx - layers ≤ i then lcp layers order smax (i - (nx - layers)) else 0))
    = ((if 1 ≤ nx - i ∧ nx - i < layers + 1 then lcpRev layers order smax (nx - i - 1) else 0)
      + (if nx - layers ≤ nx - i then lcp layers order smax (nx - i - (nx - layers)) else 0)) := by
  rcases le_or_lt i layers with hc | hc
  · rw [if_pos ⟨hi1, by omega⟩, if_neg (show ¬(nx - layers ≤ i) by omega),
      if_neg (show ¬(1 ≤ nx - i ∧ nx - i < layers + 1) by omega),
      if_pos (show nx - layers ≤ nx - i by omega)]
    rw [add_zero, zero_add]
    unfold lcpRev
    congr 1
    omega
  · rcases lt_or_le i (nx - layers) with hm | hh
    · rw [if_neg (show ¬(1 ≤ i ∧ i < layers + 1) by omega),
        if_neg (show ¬(nx - layers ≤ i) by omega),
        if_neg (show ¬(1 ≤ nx - i ∧ nx - i < layers + 1) by omega),
        if_neg (show ¬(nx - layers ≤ nx - i) by omega)]
    · rw [if_neg (show ¬(1 ≤ i ∧ i < layers + 1) by omega), if_pos hh,
        if_pos (show 1 ≤ nx - i ∧ nx - i < layers + 1 by omega),
        if_neg (show ¬(nx - layers ≤ nx - i) by omega)]
      rw [add_zero, zero_add]
      unfold lcpRev
      congr 1
      omega

/-- C5 counterexample: for the square 6x6 grid with the valid PML parameters
reflectivity = 1/2, dx = 1, dt = 1, layers = 2, order = 1, the generated d
coefficient array is not invariant under the top-bottom mirror of the grid:
cell (0, 0) carries only the uniform background loss while its mirror image
(5, 0) carries the full ramp value, because the reversed ramp is added to rows
1..layers rather than to rows 0..layers-1. -/
theorem pml_mirror_counterexample :
    (regeneratePml 6 6 2 1 (1 / 2) 1 1).d 0 0 ≠ (regeneratePml 6 6 2 1 (1 / 2) 1 1).d 5 0 := by
  have hE : (0 : ℝ) < EPS_0 := by unfold EPS_0; norm_num
  have hMU : (0 : ℝ) < MU_0 := by
    unfold MU_0
    positivity
  have hETA : (0 : ℝ) < ETA := Real.sqrt_pos.mpr (div_pos hMU hE)
  have hlog : Real.log (1 / 2) < 0 := Real.log_neg (by norm_num) (by norm_num)
  have hsmax : 0 < sigmaMax 1 2 (1 / 2) 1 := by
    unfold sigmaMax
    apply div_pos
    · push_cast
      nlinarith [hlog]
    · push_cast
      nlinarith [hETA]
  have hs00 : pmlSigma 6 6 2 1 (sigmaMax 1 2 (1 / 2) 1) 0 0 = 4e-4 := by
    norm_num [pmlSigma]
  have hs50 : pmlSigma 6 6 2 1 (sigmaMax 1 2 (1 / 2) 1) 5 0 = 4e-4 + sigmaMax 1 2 (1 / 2) 1 := by
    norm_num [pmlSigma, lcp]
  have hA : (0 : ℝ) < EPS_0 + 0.5 * 1 * (4e-4) := by nlinarith [hE]
  have hB : (0 : ℝ) < EPS_0 + 0.5 * 1 * (4e-4 + sigmaMax 1 2 (1 / 2) 1) := by
    nlinarith [hE, hsmax]
  simp only [regeneratePml]
  rw [hs00, hs50]
  intro h
  rw [div_eq_div_iff (ne_of_gt hA) (ne_of_gt hB)] at h
  nlinarith [hsmax]

/-- C5 amended: the reversed sigma ramp is added to rows and columns 1..layers
while the forward ramp is added to the last layers rows and columns, so the PML
arrays are not mirror-symmetric about the grid edges; instead, away from row 0
and column 0 they are invariant under the shifted reflections i to nx - i and
j to ny - j, for square or rectangular grids with 2 * layers < nx, ny. -/
theorem pml_shifted_symmetry (nx ny layers order : ℕ) (refl dx dt : ℝ) (i j : ℕ)
    (hl : 1 ≤ layers) (hnx : 2 * layers < nx) (hny : 2 * layers < ny)
    (hi1 : 1 ≤ i) (hi2 : i ≤ nx - 1) (hj1 : 1 ≤ j) (hj2 : j ≤ ny - 1) :
    (pmlSigma nx ny layers order (sigmaMax order layers refl dx) i j
        = pmlSigma nx ny layers order (sigmaMax order layers refl dx) (nx - i) j
      ∧ pmlSigma nx ny layers order (sigmaMax order layers refl dx) i j
        = pmlSigma nx ny layers order (sigmaMax order layers refl dx) i (ny - j))
    ∧ ((regeneratePml nx ny layers order refl dx dt).c i j
        = (regeneratePml nx ny layers order refl dx dt).c (nx - i) j
      ∧ (regeneratePml nx ny layers order refl dx dt).c i j
        = (regeneratePml nx ny layers order refl dx dt).c i (ny - j))
    ∧ ((regeneratePml nx ny layers order refl dx dt).d i j
        = (regeneratePml nx ny layers order refl dx dt).d (nx - i) j
      ∧ (regeneratePml nx ny layers order refl dx dt).d i j
        = (regeneratePml nx ny layers order refl dx dt).d i (ny - j)) := by
  have hrow := pml_row_symm nx layers order (sigmaMax order layers refl dx) i hl hnx hi1 hi2
  have hcol := pml_row_symm ny layers order (sigmaMax order layers refl dx) j hl hny hj1 hj2
  have hs1 : pmlSigma nx ny layers order (sigmaMax order layers refl dx) i j
      = pmlSigma nx ny layers order (sigmaMax order layers refl dx) (nx - i) j := by
    unfold pmlSigma
    linarith [hrow]
  have hs2 : pmlSigma nx ny layers order (sigmaMax order layers refl dx) i j
      = pmlSigma nx ny layers order (sigmaMax order layers refl dx) i (ny - j) := by
    unfold pmlSigma
    linarith [hcol]
  refine ⟨⟨hs1, hs2⟩, ⟨?_, ?_⟩, ⟨?_, ?_⟩⟩
  · simp only [regeneratePml]
    rw [hs1]
  · simp only [regeneratePml]
    rw [hs2]
  · simp only [regeneratePml]
    rw [hs1]
  · simp only [regeneratePml]
    rw [hs2]

/-- Witness for the amended C5 on the concrete 6x6 grid. -/
theorem pml_shifted_symmetry_witness :
    (pmlSigma 6 6 2 1 (sigmaMax 1 2 (1 / 2) 1) 1 1
        = pmlSigma 6 6 2 1 (sigmaMax 1 2 (1 / 2) 1) 5 1
      ∧ pmlSigma 6 6 2 1 (sigmaMax 1 2 (1 / 2) 1) 1 1
        = pmlSigma 6 6 2 1 (sigmaMax 1 2 (1 / 2) 1) 1 5)
    ∧ ((regeneratePml 6 6 2 1 (1 / 2) 1 1).c 1 1 = (regeneratePml 6 6 2 1 (1 / 2) 1 1).c 5 1
      ∧ (regeneratePml 6 6 2 1 (1 / 2) 1 1).c 1 1 = (regeneratePml 6 6 2 1 (1 / 2) 1 1).c 1 5)
    ∧ ((regeneratePml 6 6 2 1 (1 / 2) 1 1).d 1 1 = (regeneratePml 6 6 2 1 (1 / 2) 1 1).d 5 1
      ∧ (regeneratePml 6 6 2 1 (1 / 2) 1 1).d 1 1 = (regeneratePml 6 6 2 1 (1 / 2) 1 1).d 1 5) :=
  pml_shifted_symmetry 6 6 2 1 (1 / 2) 1 1 1 1 (by decide) (by decide) (by decide)
    (by decide) (by decide) (by decide) (by decide)

/-- C6: evaluating simulate_frame on a 4x4 all-zero state with one source and
one sensor both at (pos_x, pos_y) = (1, 2): the injected value 5 is written to
ez[2, 1] (row pos_y, column pos_x) while the sensor records ez[1, 2] (row
pos_x, column pos_y) = 0, so the sensor does not observe the injected value on
the frame it is injected, contradicting the claim. -/
theorem source_sensor_transposed :
    ((simulateFrame 4 4 wOne wOne wOne wOne wOne wOne
        [⟨1, 2, id, [5]⟩] [⟨1, 2, [0]⟩] 0 zeroGrid zeroGrid zeroGrid).map
        fun r => (r.1 2 1, r.1 1 2, r.2.2.2.1.map EngineSensor.data))
      = some (5, 0, [[0]])
    ∧ (5 : ℝ) ≠ 0 := by
  constructor
  · simp only [simulateFrame, stepFields, injectSources, recordSensors, List.get?,
      Option.map_some]
    norm_num [setCell, ezStep, hyStep, hxStep, zeroGrid]
  · norm_num

/-- C10: the engine-side call source.calculate_data(self._time_array) in
add_source, update_source and the set_dt recompute supplies one positional
argument, but SineSource.calculate_data as defined requires two (dt and
time_steps), so the call cannot bind and raises TypeError: the claimed
recomputation of the sine data series never takes place. -/
theorem sine_calculate_data_call_mismatch :
    pyCallBinds sineCalculateDataRequiredArgs engineCalculateDataSuppliedArgs = false := rfl

end Oddzialywanie
